import Mathlib

/-!
Shallow embedding of the `cortex-act` repository's terminal-extension and
MCP-server code (src/labs/terminal_extension/src/extension.ts and the two
server copies in src/unnamed/part_000), together with spec-modelled
definitions for the Rust core (editor.rs, auto_healer.rs, job_manager.rs)
that is declared in the README but absent from src/.
-/

namespace CortexAct

/-! ## Terminal extension: buffer model (extension.ts lines 3-60) -/

/-- `TerminalBuffer` from extension.ts: name, pid, captured output lines. -/
structure TerminalBuffer where
  name : String
  pid : Nat
  lines : List String
  deriving Repr, DecidableEq

/-- `initializeBuffer` (extension.ts lines 26-36): a fresh buffer has no lines.
The registry-level "only if absent" guard is modelled at the state level. -/
def initializeBuffer (name : String) (pid : Nat) : TerminalBuffer :=
  { name := name, pid := pid, lines := [] }

/-- JavaScript `array.slice(-n)`: the last `n` elements (all of them when the
array is shorter than `n`). -/
def sliceLast (n : Nat) (ls : List String) : List String :=
  ls.drop (ls.length - n)

/-- JavaScript `data.split('\n')` on the character list: split on every
newline, always producing at least one (possibly empty) fragment. -/
def splitOnChar (sep : Char) : List Char → List (List Char)
  | [] => [[]]
  | c :: cs =>
      let rest := splitOnChar sep cs
      if c = sep then [] :: rest
      else
        match rest with
        | [] => [[c]]
        | r :: rs => (c :: r) :: rs

/-- JavaScript `data.split('\n')` (extension.ts line 44). -/
def splitLines (s : String) : List String :=
  (splitOnChar (Char.ofNat 10) s.data).map (fun cs => String.mk cs)

/-- The merge step of `addDataToBuffer` (extension.ts lines 44-54): the first
new line is appended onto the buffer's last line when both are nonempty, the
remaining new lines are pushed. -/
def mergeData (old new : List String) : List String :=
  match old.getLast?, new with
  | some last, n :: ns => old.dropLast ++ (last ++ n) :: ns
  | _, _ => old ++ new

/-- The cap step of `addDataToBuffer` (extension.ts lines 57-59): keep only the
last 1000 lines when the buffer exceeds 1000 lines. -/
def capLines (ls : List String) : List String :=
  if ls.length > 1000 then sliceLast 1000 ls else ls

/-- `addDataToBuffer` (extension.ts lines 39-60) acting on one buffer: split the
data on newlines, merge the first fragment into the last buffered line, append
the rest, then cap at the most recent 1000 lines. -/
def addDataToBuffer (b : TerminalBuffer) (data : String) : TerminalBuffer :=
  { b with lines := capLines (mergeData b.lines (splitLines data)) }

/-- The extension's mutable state: the `terminalBuffers` map keyed by pid, the
commands sent to terminals via `sendText` (an external effect, recorded), and
the filesystem's per-id log files. extension.ts performs no file I/O, so
`logFiles` is a frame component: it lets theorems state which operations touch
the disk (none do). -/
structure ExtState where
  buffers : Nat → Option TerminalBuffer
  logFiles : Nat → List String
  sent : List (Nat × String)

/-- The data-arrival event handler (extension.ts lines 39-41 and 69-99): look
the pid up in `terminalBuffers`; if absent do nothing, else apply
`addDataToBuffer`. Only the in-memory registry changes. -/
def addDataEvent (st : ExtState) (pid : Nat) (data : String) : ExtState :=
  match st.buffers pid with
  | none => st
  | some b =>
      { st with
        buffers := fun p => if p = pid then some (addDataToBuffer b data) else st.buffers p }

/-! ## Terminal extension: registered commands (extension.ts lines 127-362) -/

/-- A VS Code terminal as the extension sees it: its display name and the
shell process id (`terminal.processId`, which may be unavailable). -/
structure ExtTerminal where
  name : String
  pid? : Option Nat
  deriving Repr, DecidableEq

/-- JavaScript truthiness of `params.pid` when modelled as an optional
number: absent and `0` are falsy. -/
def truthyNat : Option Nat → Bool
  | some n => n ≠ 0
  | none => false

/-- The pid-matching loop shared by `terminal-master.run` and
`terminal-master.runAndWait` (extension.ts lines 217-224 and 324-331): the
first terminal whose `processId` equals the requested pid. -/
def findTerminalByPid (terminals : List ExtTerminal) (pid : Nat) : Option ExtTerminal :=
  terminals.find? (fun t => t.pid? == some pid)

/-- Result of `terminal-master.run` (extension.ts lines 210-235): the error
object for missing parameters, the error object for an unknown pid, or the
success object after `sendText`. -/
inductive CmdResult where
  | missingParams
  | notFound (pid : Nat)
  | sent (command : String) (pid : Nat)
  deriving Repr, DecidableEq

/-- `terminal-master.run` (extension.ts lines 189-236) with explicit state
passing. `sendText` is recorded in `st.sent`; the third component is the
time the handler itself waits before returning (it never sleeps). -/
def runCommandExt (st : ExtState) (terminals : List ExtTerminal)
    (pid? : Option Nat) (command : String) : CmdResult × ExtState × Nat :=
  if truthyNat pid? = false || command = "" then (.missingParams, st, 0)
  else
    let pid := pid?.getD 0
    match findTerminalByPid terminals pid with
    | none => (.notFound pid, st, 0)
    | some _ => (.sent command pid, { st with sent := st.sent ++ [(pid, command)] }, 0)

/-- Parameters of `terminal-master.read` (extension.ts lines 239-291). -/
structure ReadParams where
  pid? : Option Nat
  startLine? : Option Nat
  endLine? : Option Nat

/-- Result of `terminal-master.read`. -/
inductive ReadResult where
  | missingParams
  | notFound (pid : Nat)
  | ok (pid : Nat) (lines : List String)
  deriving Repr, DecidableEq

/-- The `startLine`/`endLine` slicing of `terminal-master.read`
(extension.ts lines 276-282): JavaScript `slice(start, end + 1)`,
`slice(start)`, or `slice(0, end + 1)` depending on which bounds are given. -/
def sliceRange (ls : List String) (s? e? : Option Nat) : List String :=
  match s?, e? with
  | some s, some e => (ls.drop s).take (e + 1 - s)
  | some s, none => ls.drop s
  | none, some e => ls.take (e + 1)
  | none, none => ls

/-- `terminal-master.read` (extension.ts lines 239-291): pure lookup in the
buffer registry, returning the requested line range; no state is mutated. -/
def readCommandExt (buffers : Nat → Option TerminalBuffer) (p : ReadParams) : ReadResult :=
  if truthyNat p.pid? = false then .missingParams
  else
    let pid := p.pid?.getD 0
    match buffers pid with
    | none => .notFound pid
    | some b => .ok pid (sliceRange b.lines p.startLine? p.endLine?)

/-- The informational fallback lines of `terminal-master.list`
(extension.ts lines 160-166), shown when a terminal has no buffered output. -/
def infoLines (name : String) (pid : Nat) : List String :=
  [ "Terminal: " ++ name,
    "PID: " ++ toString pid,
    "Status: Active",
    "Note: Run commands in this terminal to see output here",
    "Try: echo \"Hello Terminal Master\"" ]

/-- One entry of the `terminal-master.list` result (extension.ts lines
135-181). -/
structure ListEntry where
  name : String
  pid : Nat
  latestLines : List String
  deriving Repr, DecidableEq

/-- The per-terminal body of `terminal-master.list` (extension.ts lines
138-181): when the pid is unavailable, the fixed error entry; otherwise the
last 10 buffered nonblank lines, the informational fallback when there are
none, capped again at 10 lines. The terminal's buffer is initialized (empty)
when absent, so an absent buffer contributes no lines. -/
def listEntryFor (name : String) (pid? : Option Nat)
    (buffers : Nat → Option TerminalBuffer) : ListEntry :=
  match pid? with
  | none => { name := name, pid := 0, latestLines := ["Unable to get terminal PID"] }
  | some pid =>
      let bufLines := match buffers pid with
        | some b => b.lines
        | none => []
      let fromBuf :=
        if bufLines ≠ [] then (sliceLast 10 bufLines).filter (fun l => l.trim ≠ "") else []
      let latest := if fromBuf = [] then infoLines name pid else fromBuf
      { name := name, pid := pid, latestLines := sliceLast 10 latest }

/-- `terminal-master.list` (extension.ts lines 130-186): one entry per open
terminal. -/
def listCommandExt (terminals : List ExtTerminal)
    (buffers : Nat → Option TerminalBuffer) : List ListEntry :=
  terminals.map (fun t => listEntryFor t.name t.pid? buffers)

/-- Parameters of `terminal-master.runAndWait` (extension.ts lines 295-362). -/
structure RAWParams where
  pid? : Option Nat
  command : String
  waitTime? : Option Nat

/-- Result of `terminal-master.runAndWait`. -/
inductive RAWResult where
  | missingParams
  | notFound (pid : Nat)
  | success (command : String) (pid : Nat) (terminal : String)
      (waitTime : Nat) (capturedOutput : List String)
  deriving Repr, DecidableEq

/-- `params.waitTime || 3000` (extension.ts line 343): absent or zero wait
times fall back to the 3000 ms default. -/
def effectiveWaitTime : Option Nat → Nat
  | some w => if w = 0 then 3000 else w
  | none => 3000

/-- The captured-output read of `runAndWait` (extension.ts line 348):
`buffer ? buffer.lines.slice(-10) : []`. -/
def runAndWaitCaptured : Option TerminalBuffer → List String
  | some b => sliceLast 10 b.lines
  | none => []

/-- `terminal-master.runAndWait` (extension.ts lines 295-362).
`buffersAtWait` is the buffer registry as observed after the `setTimeout`
sleep (the only await of the handler); the second component is the number of
milliseconds the handler waits before returning. The handler polls the
captured-output buffer — it never waits on, or even observes, process exit. -/
def runAndWaitCommand (terminals : List ExtTerminal)
    (buffersAtWait : Nat → Option TerminalBuffer) (p : RAWParams) : RAWResult × Nat :=
  if truthyNat p.pid? = false || p.command = "" then (.missingParams, 0)
  else
    let pid := p.pid?.getD 0
    match findTerminalByPid terminals pid with
    | none => (.notFound pid, 0)
    | some t =>
        let waitTime := effectiveWaitTime p.waitTime?
        (.success p.command pid t.name waitTime (runAndWaitCaptured (buffersAtWait pid)),
         waitTime)

/-! ## MCP server (src/unnamed/part_000): two concatenated copies.
Lines 1-450 are the compiled-JavaScript copy, lines 451-762 the TypeScript
copy. Both shell out to `code --command ...` via `exec`. -/

/-- A JSON value, as passed between the extension and the MCP server. -/
inductive JsonV where
  | null
  | bool (b : Bool)
  | num (n : Int)
  | str (s : String)
  | arr (items : List JsonV)
  | obj (fields : List (String × JsonV))

/-- Outcome of the underlying `exec` of the `code` CLI: the error callback
argument, or the produced stdout/stderr. -/
inductive ExecOutcome where
  | failed (msg : String)
  | ok (stdout stderr : String)
  deriving Repr, DecidableEq

/-- The shared success path of both `executeVSCodeCommand` copies
(part_000 lines 203-211 and 621-628): parse nonempty stdout as JSON
(falling back to `{output, stderr}` when parsing throws), or `{success:
true}` for empty stdout. `parse` stands for `JSON.parse`, with `none` for a
thrown parse error. -/
def parseStdoutResult (parse : String → Option JsonV) (stdout stderr : String) : JsonV :=
  if stdout.trim ≠ "" then
    match parse stdout with
    | some v => v
    | none => .obj [("output", .str stdout), ("stderr", .str stderr)]
  else .obj [("success", .bool true)]

/-- The mock data the TypeScript copy fabricates when the `code` CLI fails
(part_000 lines 607-617). -/
def mockFor (command : String) : JsonV :=
  if command = "terminal-master.list" then
    .arr
      [ .obj [("name", .str "Terminal 1"), ("pid", .num 1001),
              ("latestLines", .arr [.str "$ ls", .str "file1.txt", .str "file2.txt"])],
        .obj [("name", .str "Terminal 2"), ("pid", .num 1002),
              ("latestLines", .arr [.str "$ pwd", .str "/Users/hero"])] ]
  else if command = "terminal-master.run" then
    .obj [("success", .bool false),
          ("error", .str "VS Code extension not accessible from MCP context")]
  else
    .obj [("success", .bool false),
          ("message", .str ("VS Code extension not accessible: " ++ command))]

/-- `executeVSCodeCommand`, compiled-JavaScript copy (part_000 lines
193-214): rejects the promise when `exec` reports an error, otherwise
resolves with the parsed stdout. `Except.error` models a rejected promise. -/
def executeVSCodeCommandJS (parse : String → Option JsonV) (_command : String)
    (outcome : ExecOutcome) : Except String JsonV :=
  match outcome with
  | .failed msg => .error ("VS Code command failed: " ++ msg)
  | .ok stdout stderr => .ok (parseStdoutResult parse stdout stderr)

/-- `executeVSCodeCommand`, TypeScript copy (part_000 lines 595-631): when
`exec` reports an error it resolves with command-specific mock data instead
of rejecting; otherwise identical to the JavaScript copy. -/
def executeVSCodeCommandTS (parse : String → Option JsonV) (command : String)
    (outcome : ExecOutcome) : Except String JsonV :=
  match outcome with
  | .failed _ => .ok (mockFor command)
  | .ok stdout stderr => .ok (parseStdoutResult parse stdout stderr)

/-- The `{content: [{type: 'text', text}], isError}` result every MCP tool
handler returns; `content` always holds a single text block. -/
structure CallToolResult where
  text : String
  isError : Bool
  deriving Repr, DecidableEq

/-- `result.length || 0`: JavaScript `.length` of the parsed result (0 for
non-arrays, whose `length` is undefined). -/
def jsonLength : JsonV → Nat
  | .arr items => items.length
  | _ => 0

/-- `obj.field` access on a parsed JSON value. -/
def jsonField : JsonV → String → Option JsonV
  | .obj fields, k => (fields.find? (fun p => p.1 == k)).map (fun p => p.2)
  | _, _ => none

/-- JavaScript string coercion of an element inside `array.join`. The values
joined by the server are strings or numbers. -/
def jsShow : JsonV → String
  | .str s => s
  | .num n => toString n
  | .bool true => "true"
  | .bool false => "false"
  | .null => "null"
  | .arr _ => ""
  | .obj _ => ""

/-- `x?.join('\n') || dflt` applied to an optional field: join an array
field, with the default for an absent/empty result. -/
def joinOrDefault (v? : Option JsonV) (dflt : String) : String :=
  match v? with
  | some (.arr []) => dflt
  | some (.arr items) => String.intercalate "\n" (items.map jsShow)
  | _ => dflt

/-- The arguments object of a tool call (the union of the fields the
JavaScript-copy handlers read from `args`). -/
structure ToolArgs where
  pid : Nat
  command : String
  keyword : String
  startLine? : Option Nat
  endLine? : Option Nat
  waitTime? : Option Nat

/-- `listTerminals` (part_000 lines 215-238): format the extension's reply,
catching a rejected `executeVSCodeCommand` into an `isError` result.
`stringify` stands for `JSON.stringify(result, null, 2)`. -/
def listTerminalsJS (stringify : JsonV → String) (parse : String → Option JsonV)
    (outcome : ExecOutcome) : CallToolResult :=
  match executeVSCodeCommandJS parse "terminal-master.list" outcome with
  | .ok result =>
      { text := "Found " ++ toString (jsonLength result) ++ " terminals:\n\n"
          ++ stringify result,
        isError := false }
  | .error e =>
      { text := "Error listing terminals: " ++ e
          ++ "\n\nMake sure VS Code is running and Terminal Master extension is installed.",
        isError := true }

/-- `runCommand` (part_000 lines 239-262). -/
def runCommandJS (stringify : JsonV → String) (parse : String → Option JsonV)
    (pid : Nat) (command : String) (outcome : ExecOutcome) : CallToolResult :=
  match executeVSCodeCommandJS parse "terminal-master.run" outcome with
  | .ok result =>
      { text := "Command executed successfully:\n\nPID: " ++ toString pid
          ++ "\nCommand: " ++ command ++ "\nResult: " ++ stringify result,
        isError := false }
  | .error e => { text := "Error running command: " ++ e, isError := true }

/-- `runAndWait` (part_000 lines 263-295); `waitTime` defaults to 5000. -/
def runAndWaitJS (stringify : JsonV → String) (parse : String → Option JsonV)
    (pid : Nat) (command : String) (waitTime? : Option Nat)
    (outcome : ExecOutcome) : CallToolResult :=
  let waitTime := waitTime?.getD 5000
  match executeVSCodeCommandJS parse "terminal-master.runAndWait" outcome with
  | .ok result =>
      { text := "Command executed and waited for output:\n\n"
          ++ "Command: " ++ command ++ "\n"
          ++ "PID: " ++ toString pid ++ "\n"
          ++ "Wait Time: " ++ toString waitTime ++ "ms\n\n"
          ++ "Captured Output:\n"
          ++ joinOrDefault (jsonField result "capturedOutput") "No output captured"
          ++ "\n\nFull Result: " ++ stringify result,
        isError := false }
  | .error e => { text := "Error running command with wait: " ++ e, isError := true }

/-- `searchOutput` (part_000 lines 296-322). -/
def searchOutputJS (stringify : JsonV → String) (parse : String → Option JsonV)
    (pid : Nat) (keyword : String) (outcome : ExecOutcome) : CallToolResult :=
  match executeVSCodeCommandJS parse "terminal-master.search" outcome with
  | .ok result =>
      { text := "Search results for \"" ++ keyword ++ "\" in terminal "
          ++ toString pid ++ ":\n\n"
          ++ "Found " ++ toString (jsonLength ((jsonField result "matchingLines").getD .null))
          ++ " matching lines:\n\n"
          ++ joinOrDefault (jsonField result "matchingLines") "No matches found"
          ++ "\n\nFull Result: " ++ stringify result,
        isError := false }
  | .error e => { text := "Error searching output: " ++ e, isError := true }

/-- `readTerminalOutput` (part_000 lines 323-354). -/
def readTerminalOutputJS (stringify : JsonV → String) (parse : String → Option JsonV)
    (pid : Nat) (startLine? endLine? : Option Nat) (outcome : ExecOutcome) : CallToolResult :=
  match executeVSCodeCommandJS parse "terminal-master.read" outcome with
  | .ok result =>
      { text := "Terminal output for PID " ++ toString pid ++ ":\n\n"
          ++ "Lines: " ++ toString (startLine?.getD 0) ++ " to "
          ++ (match endLine? with | some e => toString e | none => "end") ++ "\n\n"
          ++ joinOrDefault (jsonField result "lines") "No output available"
          ++ "\n\nFull Result: " ++ stringify result,
        isError := false }
  | .error e => { text := "Error reading terminal output: " ++ e, isError := true }

/-- `getExtensionStatus` (part_000 lines 355-385); the success-path
formatting is abbreviated to the stringified status (the full template reads
several optional fields), its `isError` flag faithful. -/
def getExtensionStatusJS (stringify : JsonV → String) (parse : String → Option JsonV)
    (outcome : ExecOutcome) : CallToolResult :=
  match executeVSCodeCommandJS parse "terminal-master.getStatus" outcome with
  | .ok result =>
      { text := "Terminal Master Extension Status:\n\n" ++ stringify result,
        isError := false }
  | .error e => { text := "Error getting extension status: " ++ e, isError := true }

/-- `killAllTerminals` (part_000 lines 386-411). -/
def killAllTerminalsJS (stringify : JsonV → String) (parse : String → Option JsonV)
    (outcome : ExecOutcome) : CallToolResult :=
  match executeVSCodeCommandJS parse "terminal-master.killAll" outcome with
  | .ok result =>
      { text := "All terminals killed:\n\nKilled "
          ++ toString (jsonLength ((jsonField result "killedCount").getD .null))
          ++ " terminals\nResult: " ++ stringify result,
        isError := false }
  | .error e => { text := "Error killing terminals: " ++ e, isError := true }

/-- `generateTestOutput` (part_000 lines 412-440); success-path formatting
abbreviated as for `getExtensionStatus`. -/
def generateTestOutputJS (stringify : JsonV → String) (parse : String → Option JsonV)
    (outcome : ExecOutcome) : CallToolResult :=
  match executeVSCodeCommandJS parse "terminal-master.generate-test-output" outcome with
  | .ok result =>
      { text := "Test output generation initiated:\n\n" ++ stringify result,
        isError := false }
  | .error e => { text := "Error generating test output: " ++ e, isError := true }

/-- The `switch` of the `CallToolRequest` handler (part_000 lines 156-178):
dispatch on the tool name; an unknown name throws (`Except.error`). -/
def dispatchToolJS (stringify : JsonV → String) (parse : String → Option JsonV)
    (name : String) (args : ToolArgs) (outcome : ExecOutcome) :
    Except String CallToolResult :=
  if name = "list_terminals" then .ok (listTerminalsJS stringify parse outcome)
  else if name = "run_command" then
    .ok (runCommandJS stringify parse args.pid args.command outcome)
  else if name = "run_and_wait" then
    .ok (runAndWaitJS stringify parse args.pid args.command args.waitTime? outcome)
  else if name = "search_output" then
    .ok (searchOutputJS stringify parse args.pid args.keyword outcome)
  else if name = "read_terminal_output" then
    .ok (readTerminalOutputJS stringify parse args.pid args.startLine? args.endLine? outcome)
  else if name = "get_extension_status" then .ok (getExtensionStatusJS stringify parse outcome)
  else if name = "kill_all_terminals" then .ok (killAllTerminalsJS stringify parse outcome)
  else if name = "generate_test_output" then .ok (generateTestOutputJS stringify parse outcome)
  else .error ("Unknown tool: " ++ name)

/-- The full `CallToolRequest` handler (part_000 lines 156-191): the
`try`/`catch` around the dispatch turns any thrown error into a structured
`isError` result, so the handler always returns a plain value. -/
def handleCallToolJS (stringify : JsonV → String) (parse : String → Option JsonV)
    (name : String) (args : ToolArgs) (outcome : ExecOutcome) : CallToolResult :=
  match dispatchToolJS stringify parse name args outcome with
  | .ok r => r
  | .error e => { text := "Error: " ++ e, isError := true }

/-! ## Spec-modelled Rust core. The README places editor.rs, auto_healer.rs
and job_manager.rs under the repository's src/act/, but those files are not
in this snapshot; the definitions below are modelled from spec.md. -/

/-- Modelled from the spec: the Job Record status of job_manager.rs (absent
from src/), spec.md section 3: status ∈ {Pending, Running, Succeeded, Failed,
Killed, TimedOut}. -/
inductive JobStatus where
  | pending
  | running
  | succeeded
  | failed
  | killed
  | timedOut
  deriving Repr, DecidableEq

/-- Modelled from the spec: the terminal states of the job state machine
(spec.md sections 3 and 4.3): Succeeded, Failed, Killed and TimedOut are
final. -/
def JobStatus.isTerminal : JobStatus → Bool
  | .pending => false
  | .running => false
  | .succeeded => true
  | .failed => true
  | .killed => true
  | .timedOut => true

/-- Modelled from the spec: the result of `kill_job` (spec.md section 6:
`kill_job(job_id) -> {status}`, plus the `JobNotFound` case of the section 7
taxonomy). -/
inductive KillResult where
  | ok (status : JobStatus)
  | jobNotFound
  deriving Repr, DecidableEq

/-- Modelled from the spec: `kill(job_id)` of job_manager.rs (absent from
src/), spec.md sections 4.3 and 5: kill requests termination, transitions a
non-terminal job to Killed, and is a no-op — not an error — on a job that
already reached a terminal state. The registry is the spec's "mapping from
job id to record". -/
def killJob (reg : String → Option JobStatus) (id : String) :
    KillResult × (String → Option JobStatus) :=
  match reg id with
  | none => (.jobNotFound, reg)
  | some st =>
      if st.isTerminal then (.ok st, reg)
      else (.ok .killed, fun j => if j = id then some .killed else reg j)

/-- Modelled from the spec: the Editor's failure taxonomy (spec.md section
7) restricted to the edit path. -/
inductive EditError where
  | targetNotFound
  | ambiguousTarget
  | parseInvalidAfterEdit
  | healingUnavailable
  | healingFailed
  deriving Repr, DecidableEq

/-- Modelled from the spec: the outcome of an edit request (spec.md section
6: `{applied, healed}` or `{error, reason}`). -/
inductive EditOutcome where
  | committed (healed : Bool)
  | rejected (reason : EditError)
  deriving Repr, DecidableEq

/-- Modelled from the spec: the Auto-Healer's single bounded call
(auto_healer.rs is absent from src/), spec.md section 4.2: await one
response under a hard timeout; a response arriving after the timeout — or
never (`respondsAfter = none`) — counts as healing unavailable. The second
component is the wall-clock time spent waiting. -/
def healerCall (timeout : Nat) (respondsAfter : Option Nat) (response : String) :
    Option String × Nat :=
  match respondsAfter with
  | none => (none, timeout)
  | some t => if t ≤ timeout then (some response, t) else (none, timeout)

/-- Modelled from the spec: the Editor's two-phase-commit pipeline
(editor.rs is absent from src/), spec.md sections 4.1 and 4.2. `applyOps`
is the locate-and-splice stage over the Candidate Buffer (`.error` for a
locator rejection), `hasErrors` re-parses a working text and reports parse
errors, and the healer is consulted at most once when validation fails.
Result: outcome, the on-disk bytes after the call (the commit is atomic:
the disk holds either the original or a complete new text, never a partial
write), the number of Auto-Healer invocations, and the elapsed time spent
suspended (spec.md section 5: the healer call is the only suspension
point). -/
def editPipeline (applyOps : String → Except EditError String)
    (hasErrors : String → Bool) (timeout : Nat) (respondsAfter : Option Nat)
    (response : String) (original : String) :
    EditOutcome × String × Nat × Nat :=
  match applyOps original with
  | .error e => (.rejected e, original, 0, 0)
  | .ok working =>
      if hasErrors working then
        match healerCall timeout respondsAfter response with
        | (none, d) => (.rejected .healingUnavailable, original, 1, d)
        | (some healed, d) =>
            if hasErrors healed then (.rejected .healingFailed, original, 1, d)
            else (.committed true, healed, 1, d)
      else (.committed false, working, 0, 0)

/-! ## Concrete sample inputs, used to evaluate the definitions. -/

/-- An extension state with one initialized buffer (pid 7), an empty
filesystem and no sent commands. -/
def sampleExtState : ExtState :=
  { buffers := fun p => if p = 7 then some (initializeBuffer "bash" 7) else none,
    logFiles := fun _ => [],
    sent := [] }

/-- A buffer already holding 1001 captured lines, exercising the cap. -/
def bigBuffer : TerminalBuffer :=
  { name := "bash", pid := 7, lines := List.replicate 1001 "x" }

/-- One open terminal whose shell pid is 5. -/
def sampleTerminals : List ExtTerminal :=
  [{ name := "zsh", pid? := some 5 }]

/-- Concrete `runAndWait` parameters. -/
def sampleRAWParams : RAWParams :=
  { pid? := some 5, command := "ls", waitTime? := none }

/-- Concrete `read` parameters naming a pid with no buffer. -/
def sampleReadParams : ReadParams :=
  { pid? := some 9, startLine? := none, endLine? := none }

/-- A `JSON.stringify` stand-in for concrete evaluation. -/
def sampleStringify : JsonV → String := fun _ => "{}"

/-- A `JSON.parse` stand-in that always throws. -/
def sampleParse : String → Option JsonV := fun _ => none

/-- Concrete tool-call arguments. -/
def sampleToolArgs : ToolArgs :=
  { pid := 5, command := "ls", keyword := "error",
    startLine? := none, endLine? := none, waitTime? := none }

/-- A job registry holding one running job. -/
def sampleJobReg : String → Option JobStatus :=
  fun j => if j = "job-1" then some .running else none

/-- A locate-and-splice stage that succeeds with a broken working text. -/
def sampleApplyOps : String → Except EditError String :=
  fun _ => .ok "fn add(a, b) \x7b a +"

/-- A validator that reports parse errors on every text. -/
def sampleHasErrors : String → Bool :=
  fun _ => true

end CortexAct

namespace CortexAct

/-! ### Theorems about the buffer cap -/

theorem sliceLast_length_le (n : Nat) (ls : List String) :
    (sliceLast n ls).length ≤ n := by
  simp only [sliceLast, List.length_drop]
  omega

theorem capLines_length_le (ls : List String) : (capLines ls).length ≤ 1000 := by
  unfold capLines
  split
  · exact sliceLast_length_le 1000 ls
  · omega

theorem capLines_suffix (ls : List String) : (capLines ls) <:+ ls := by
  unfold capLines
  split
  · exact List.drop_suffix _ _
  · exact List.suffix_rfl

theorem healerCall_snd_le (timeout : Nat) (r : Option Nat) (resp : String) :
    (healerCall timeout r resp).2 ≤ timeout := by
  unfold healerCall
  cases r with
  | none => exact le_refl _
  | some t =>
      by_cases hle : t ≤ timeout
      · simp [hle]
      · simp [hle]

/-! ### Claim theorems -/

/-- Claim C1: for every edit request that fails validation and healing, the
on-disk bytes after the call equal the bytes before it; a committed request
replaces the file in one step with a text the validator accepts, so no
partial write is ever observable. Proved for every locator/splicer, every
grammar validator, every healer configuration and every original text. -/
theorem edit_atomicity :
    ∀ applyOps hasErrors timeout respondsAfter response original,
      (∀ e, (editPipeline applyOps hasErrors timeout respondsAfter response original).1 =
          .rejected e →
        (editPipeline applyOps hasErrors timeout respondsAfter response original).2.1 =
          original) ∧
      (∀ hl, (editPipeline applyOps hasErrors timeout respondsAfter response original).1 =
          .committed hl →
        hasErrors
          (editPipeline applyOps hasErrors timeout respondsAfter response original).2.1 =
          false) := by
  intro applyOps hasErrors timeout respondsAfter response original
  unfold editPipeline
  split
  · exact ⟨fun e _ => rfl, fun hl hc => by simp at hc⟩
  · split
    · split
      · exact ⟨fun e _ => rfl, fun hl hc => by simp at hc⟩
      · split
        · exact ⟨fun e _ => rfl, fun hl hc => by simp at hc⟩
        · rename_i hnoterr
          refine ⟨fun e he => by simp at he, fun hl _ => ?_⟩
          simpa using hnoterr
    · rename_i hok
      refine ⟨fun e he => by simp at he, fun hl _ => ?_⟩
      simpa using hok

/-- Claim C1 witness: a request whose edited text stays broken and whose
healer never responds is rejected and leaves the original file untouched. -/
theorem edit_atomicity_witness :
    (editPipeline sampleApplyOps sampleHasErrors 10 none "resp" "original").1 =
      EditOutcome.rejected EditError.healingUnavailable ∧
    (editPipeline sampleApplyOps sampleHasErrors 10 none "resp" "original").2.1 =
      "original" :=
  ⟨rfl, (edit_atomicity sampleApplyOps sampleHasErrors 10 none "resp" "original").1
    EditError.healingUnavailable rfl⟩

/-- Claim C2 counterexample: after captured output arrives for terminal 7,
the output is retained in the in-process buffer registry while the log file
for that id holds nothing — the code does not stream output to a per-job
append-only log file. -/
theorem output_not_streamed_to_log_file :
    (addDataEvent sampleExtState 7 "hello").logFiles 7 = [] ∧
    ((addDataEvent sampleExtState 7 "hello").buffers 7).map TerminalBuffer.lines =
      some ["hello"] :=
  ⟨rfl, by decide⟩

/-- Claim C2 (amended): captured output is retained in an in-process
per-terminal buffer keyed by pid and capped at the most recent 1000 lines;
output capture writes no log file — the filesystem component of the state
is untouched by every data-arrival event. -/
theorem output_retained_in_memory_capped :
    ∀ st pid data,
      (addDataEvent st pid data).logFiles = st.logFiles ∧
      (∀ b, st.buffers pid = some b →
        (addDataEvent st pid data).buffers pid = some (addDataToBuffer b data) ∧
        (addDataToBuffer b data).lines.length ≤ 1000) := by
  intro st pid data
  constructor
  · unfold addDataEvent
    cases st.buffers pid <;> rfl
  · intro b hb
    refine ⟨?_, capLines_length_le _⟩
    unfold addDataEvent
    rw [hb]
    simp

/-- Claim C2 witness: the amended claim evaluated at terminal 7 of the
sample state. -/
theorem output_retained_in_memory_capped_witness :
    sampleExtState.buffers 7 = some (initializeBuffer "bash" 7) ∧
    ((addDataEvent sampleExtState 7 "hello").buffers 7 =
        some (addDataToBuffer (initializeBuffer "bash" 7) "hello") ∧
      (addDataToBuffer (initializeBuffer "bash" 7) "hello").lines.length ≤ 1000) :=
  ⟨by decide, (output_retained_in_memory_capped sampleExtState 7 "hello").2
    (initializeBuffer "bash" 7) (by decide)⟩

/-- Claim C3: every entry of the `list` result and every `runAndWait`
captured-output reply holds at most 10 lines — a bounded tail of the
captured history, never the whole history. -/
theorem status_returns_bounded_tail :
    (∀ terminals buffers e, e ∈ listCommandExt terminals buffers →
      e.latestLines.length ≤ 10) ∧
    (∀ buf?, (runAndWaitCaptured buf?).length ≤ 10) := by
  constructor
  · intro terminals buffers e he
    simp only [listCommandExt, List.mem_map] at he
    obtain ⟨t, _, rfl⟩ := he
    cases hp : t.pid? with
    | none => simp [listEntryFor, hp]
    | some pid =>
        simp only [listEntryFor, hp]
        exact sliceLast_length_le 10 _
  · intro buf?
    cases buf? with
    | none => simp [runAndWaitCaptured]
    | some b => exact sliceLast_length_le 10 _

/-- Claim C3 witness: the single entry produced for the sample terminal
holds at most 10 lines. -/
theorem status_returns_bounded_tail_witness :
    listEntryFor "zsh" (some 5) sampleExtState.buffers ∈
      listCommandExt sampleTerminals sampleExtState.buffers ∧
    (listEntryFor "zsh" (some 5) sampleExtState.buffers).latestLines.length ≤ 10 :=
  ⟨by simp [listCommandExt, sampleTerminals],
   status_returns_bounded_tail.1 sampleTerminals sampleExtState.buffers _
     (by simp [listCommandExt, sampleTerminals])⟩

/-- Claim C4: every tool request whose underlying `exec` of the `code` CLI
fails yields a structured `isError` result from the request handler — no
error escapes the call boundary — and an unknown tool name is likewise
caught into a structured error result rather than propagating the throw. -/
theorem tool_errors_structured :
    (∀ stringify parse name args msg,
      (handleCallToolJS stringify parse name args (.failed msg)).isError = true) ∧
    (∀ stringify parse name args outcome,
      ¬ name ∈ (["list_terminals", "run_command", "run_and_wait", "search_output",
        "read_terminal_output", "get_extension_status", "kill_all_terminals",
        "generate_test_output"] : List String) →
      handleCallToolJS stringify parse name args outcome =
        { text := "Error: " ++ ("Unknown tool: " ++ name), isError := true }) := by
  constructor
  · intro stringify parse name args msg
    unfold handleCallToolJS dispatchToolJS
    split_ifs <;>
      simp [listTerminalsJS, runCommandJS, runAndWaitJS, searchOutputJS,
        readTerminalOutputJS, getExtensionStatusJS, killAllTerminalsJS,
        generateTestOutputJS, executeVSCodeCommandJS]
  · intro stringify parse name args outcome hname
    simp only [List.mem_cons, List.not_mem_nil, or_false, not_or] at hname
    obtain ⟨h1, h2, h3, h4, h5, h6, h7, h8⟩ := hname
    unfold handleCallToolJS dispatchToolJS
    rw [if_neg h1, if_neg h2, if_neg h3, if_neg h4, if_neg h5, if_neg h6, if_neg h7,
      if_neg h8]

/-- Claim C4 witness: a failed `exec` under `run_command` and an unknown
tool name both surface as structured error results. -/
theorem tool_errors_structured_witness :
    (handleCallToolJS sampleStringify sampleParse "run_command" sampleToolArgs
        (.failed "spawn ENOENT")).isError = true ∧
    (¬ "bogus_tool" ∈ (["list_terminals", "run_command", "run_and_wait", "search_output",
        "read_terminal_output", "get_extension_status", "kill_all_terminals",
        "generate_test_output"] : List String) ∧
      handleCallToolJS sampleStringify sampleParse "bogus_tool" sampleToolArgs
          (.failed "spawn ENOENT") =
        { text := "Error: " ++ ("Unknown tool: " ++ "bogus_tool"), isError := true }) :=
  ⟨tool_errors_structured.1 sampleStringify sampleParse "run_command" sampleToolArgs
      "spawn ENOENT",
   by decide,
   tool_errors_structured.2 sampleStringify sampleParse "bogus_tool" sampleToolArgs
     (.failed "spawn ENOENT") (by decide)⟩

/-- Claim C5: killing a job that exists is idempotent — the second `kill`
on the same id reports no error and leaves the registry (hence the job's
status) exactly as it was after the first kill. -/
theorem kill_job_idempotent :
    ∀ reg id st, reg id = some st →
      (killJob (killJob reg id).2 id).1 ≠ KillResult.jobNotFound ∧
      (killJob (killJob reg id).2 id).2 = (killJob reg id).2 := by
  intro reg id st h
  by_cases hterm : st.isTerminal = true
  · have h1 : killJob reg id = (.ok st, reg) := by
      unfold killJob
      rw [h]
      simp [hterm]
    rw [h1]
    dsimp only
    rw [h1]
    exact ⟨by simp, rfl⟩
  · have h1 : killJob reg id =
        (.ok .killed, fun j => if j = id then some JobStatus.killed else reg j) := by
      unfold killJob
      rw [h]
      simp [hterm]
    have h2 : killJob (fun j => if j = id then some JobStatus.killed else reg j) id =
        (.ok .killed, fun j => if j = id then some JobStatus.killed else reg j) := by
      unfold killJob
      simp [JobStatus.isTerminal]
    rw [h1]
    dsimp only
    rw [h2]
    exact ⟨by simp, rfl⟩

/-- Claim C5 witness: killing the sample running job twice. -/
theorem kill_job_idempotent_witness :
    sampleJobReg "job-1" = some JobStatus.running ∧
    ((killJob (killJob sampleJobReg "job-1").2 "job-1").1 ≠ KillResult.jobNotFound ∧
      (killJob (killJob sampleJobReg "job-1").2 "job-1").2 =
        (killJob sampleJobReg "job-1").2) :=
  ⟨by decide, kill_job_idempotent sampleJobReg "job-1" JobStatus.running (by decide)⟩

/-- Claim C6: submitting a command (`run`) returns to the caller after zero
wait — it never waits on process exit; the `runAndWait` convenience returns
after at most the effective wait bound, and its captured output is exactly
the polled tail of the output buffer, independent of whether the command
has finished. -/
theorem submit_async_wait_bounded :
    (∀ st terminals pid? command, (runCommandExt st terminals pid? command).2.2 = 0) ∧
    (∀ terminals buffersAtWait p,
      (runAndWaitCommand terminals buffersAtWait p).2 ≤ effectiveWaitTime p.waitTime?) ∧
    (∀ terminals buffersAtWait p c pid tname w out,
      (runAndWaitCommand terminals buffersAtWait p).1 = .success c pid tname w out →
      out = runAndWaitCaptured (buffersAtWait pid)) := by
  refine ⟨?_, ?_, ?_⟩
  · intro st terminals pid? command
    unfold runCommandExt
    split
    · rfl
    · dsimp only
      split <;> rfl
  · intro terminals buffersAtWait p
    unfold runAndWaitCommand
    split
    · exact Nat.zero_le _
    · dsimp only
      split
      · exact Nat.zero_le _
      · exact le_refl _
  · intro terminals buffersAtWait p c pid tname w out h
    unfold runAndWaitCommand at h
    split at h
    · simp at h
    · dsimp only at h
      split at h
      · simp at h
      · simp only [RAWResult.success.injEq] at h
        obtain ⟨h1, h2, h3, h4, h5⟩ := h
        subst h2
        rw [← h5]

/-- Claim C6 witness: the sample `runAndWait` call succeeds with the polled
(empty) buffer tail as its captured output. -/
theorem submit_async_wait_bounded_witness :
    (runAndWaitCommand sampleTerminals sampleExtState.buffers sampleRAWParams).1 =
      RAWResult.success "ls" 5 "zsh" 3000 [] ∧
    ([] : List String) = runAndWaitCaptured (sampleExtState.buffers 5) :=
  ⟨by decide, submit_async_wait_bounded.2.2 sampleTerminals sampleExtState.buffers
    sampleRAWParams "ls" 5 "zsh" 3000 [] (by decide)⟩

/-- Claim C7: a `run` request naming a pid with no matching terminal
returns the structured not-found error and changes no state, and a `read`
request naming a pid with no buffer returns the structured not-found error
(the read path is stateless by construction). -/
theorem unknown_id_not_found :
    (∀ st terminals pid command, pid ≠ 0 → command ≠ "" →
      findTerminalByPid terminals pid = none →
      runCommandExt st terminals (some pid) command = (.notFound pid, st, 0)) ∧
    (∀ buffers p pid, p.pid? = some pid → pid ≠ 0 → buffers pid = none →
      readCommandExt buffers p = .notFound pid) := by
  constructor
  · intro st terminals pid command hpid hcmd hfind
    simp [runCommandExt, truthyNat, hpid, hcmd, hfind]
  · intro buffers p pid hp hpid hbuf
    simp [readCommandExt, truthyNat, hp, hpid, hbuf]

/-- Claim C7 witness: pid 9 names no terminal and no buffer in the sample
state; both operations answer not-found, the state untouched. -/
theorem unknown_id_not_found_witness :
    (findTerminalByPid sampleTerminals 9 = none ∧
      runCommandExt sampleExtState sampleTerminals (some 9) "ls" =
        (CmdResult.notFound 9, sampleExtState, 0)) ∧
    (sampleExtState.buffers 9 = none ∧
      readCommandExt sampleExtState.buffers sampleReadParams = ReadResult.notFound 9) :=
  ⟨⟨by decide, unknown_id_not_found.1 sampleExtState sampleTerminals 9 "ls" (by decide)
      (by decide) (by decide)⟩,
   ⟨by decide, unknown_id_not_found.2 sampleExtState.buffers sampleReadParams 9 rfl
      (by decide) (by decide)⟩⟩

/-- Claim C8: the Auto-Healer is consulted at most once per edit request,
and the time the edit pipeline spends suspended never exceeds the healer's
hard timeout — in particular an endpoint that never responds still lets the
call return within the timeout, never hanging. -/
theorem healer_single_call_bounded :
    ∀ applyOps hasErrors timeout respondsAfter response original,
      (editPipeline applyOps hasErrors timeout respondsAfter response original).2.2.1 ≤ 1 ∧
      (editPipeline applyOps hasErrors timeout respondsAfter response original).2.2.2 ≤
        timeout := by
  intro applyOps hasErrors timeout respondsAfter response original
  unfold editPipeline
  split
  · exact ⟨Nat.zero_le _, Nat.zero_le _⟩
  · split
    · split
      · rename_i heq
        have hd := healerCall_snd_le timeout respondsAfter response
        rw [heq] at hd
        exact ⟨le_refl _, hd⟩
      · rename_i heq
        have hd := healerCall_snd_le timeout respondsAfter response
        rw [heq] at hd
        split
        · exact ⟨le_refl _, hd⟩
        · exact ⟨le_refl _, hd⟩
    · exact ⟨Nat.zero_le _, Nat.zero_le _⟩

/-- Claim C9: a freshly initialized buffer and the buffer after any append
hold at most 1000 lines; the retained lines are always a suffix (the most
recent lines) of the merged history, and exactly its last 1000 lines when
the cap is exceeded. -/
theorem buffer_lines_capped_at_1000 :
    (∀ name pid, (initializeBuffer name pid).lines.length ≤ 1000) ∧
    (∀ b data,
      (addDataToBuffer b data).lines.length ≤ 1000 ∧
      (addDataToBuffer b data).lines <:+ mergeData b.lines (splitLines data) ∧
      ((mergeData b.lines (splitLines data)).length > 1000 →
        (addDataToBuffer b data).lines =
          sliceLast 1000 (mergeData b.lines (splitLines data)))) := by
  refine ⟨fun name pid => by simp [initializeBuffer], fun b data => ⟨?_, ?_, ?_⟩⟩
  · exact capLines_length_le _
  · exact capLines_suffix _
  · intro h
    simp only [addDataToBuffer, capLines]
    rw [if_pos h]

set_option maxRecDepth 10000 in
/-- Claim C9 witness: appending one fragment to a 1001-line buffer exceeds
the cap and keeps exactly the most recent 1000 lines. -/
theorem buffer_cap_witness :
    (mergeData bigBuffer.lines (splitLines "a")).length > 1000 ∧
    (addDataToBuffer bigBuffer "a").lines =
      sliceLast 1000 (mergeData bigBuffer.lines (splitLines "a")) :=
  ⟨by decide, (buffer_lines_capped_at_1000.2 bigBuffer "a").2.2 (by decide)⟩

/-- Claim C10 counterexample: on a failed `exec` of `terminal-master.list`,
the compiled-JavaScript copy of `executeVSCodeCommand` rejects while the
TypeScript copy resolves with fabricated mock data — the two copies are not
behaviorally equivalent. -/
theorem server_copies_differ_on_exec_failure :
    executeVSCodeCommandJS sampleParse "terminal-master.list" (.failed "spawn code ENOENT") ≠
    executeVSCodeCommandTS sampleParse "terminal-master.list" (.failed "spawn code ENOENT") := by
  simp [executeVSCodeCommandJS, executeVSCodeCommandTS]

/-- Claim C10 (amended): the two copies agree on every successful `exec`;
on a failed `exec` the JavaScript copy rejects with the error while the
TypeScript copy resolves with command-specific mock data (two fake
terminals for `terminal-master.list`). -/
theorem server_copies_agree_on_success :
    (∀ parse command stdout stderr,
      executeVSCodeCommandJS parse command (.ok stdout stderr) =
        executeVSCodeCommandTS parse command (.ok stdout stderr)) ∧
    (∀ parse command msg,
      executeVSCodeCommandJS parse command (.failed msg) =
        .error ("VS Code command failed: " ++ msg) ∧
      executeVSCodeCommandTS parse command (.failed msg) = .ok (mockFor command)) :=
  ⟨fun _ _ _ _ => rfl, fun _ _ _ => ⟨rfl, rfl⟩⟩

end CortexAct
